import Mathlib

/-!
Shallow embedding of `src/openmeteo_weather/openmeteo_weather.py`.

The module is sequential glue: geocode a free-text location, call the
Open-Meteo forecast API, reshape the response.  External effects are made
explicit inputs:

* the Nominatim `geolocator.geocode` call's outcome is a `GeoResult`;
* the `openmeteo.weather_api` call's outcome is a `WeatherOutcome`
  (either a parsed response list or a raised transport error);
* Python exceptions raised by the tool bodies become `Except PyError`;
* each tool operation additionally reports how many `weather_api` calls
  it performed (0 or 1), so that "never attempts the weather call" is
  expressible.

Numeric values (floats in the source) are modelled as `Rat`; no claim in
scope performs float arithmetic, values are only carried through.
`print` statements in the source are logging side effects with no effect
on returned data and are not modelled.
-/

namespace OpenmeteoWeather

/-- Outcome of the external `geolocator.geocode(location_string)` call in
`get_lat_long`: a match object with latitude/longitude, a falsy result
(no match), or a raised exception with a message. -/
inductive GeoResult where
  | found (lat long : Rat)
  | notFound
  | raised (msg : String)
deriving DecidableEq

/-- Embeds `get_lat_long` (lines 24-43): returns `(location.latitude,
location.longitude)` when the geocoder yields a match, `None` when it
yields no match, and — via the catch-all `except Exception` that prints
and returns `None` — also `None` when the geocoder raises.  The function
is total: no exception escapes it. -/
def get_lat_long (r : GeoResult) : Option (Rat × Rat) :=
  match r with
  | .found lat long => some (lat, long)
  | .notFound => none
  | .raised _ => none

/-- The hourly block of a parsed forecast response: `hourly.Time()`,
`hourly.TimeEnd()`, `hourly.Interval()` (epoch seconds / seconds), and
the three positional value arrays read in `get_7day_weather`
(`Variables(0..2).ValuesAsNumpy()`). -/
structure HourlyBlock where
  time : Nat
  time_end : Nat
  interval : Nat
  temperature_2m : List Rat
  relative_humidity_2m : List Rat
  precipitation : List Rat
deriving DecidableEq

/-- A parsed weather API response: the hourly block and the current block
(scalar values by position, `current.Variables(i).Value()`). -/
structure Response where
  hourly : HourlyBlock
  current : List Rat
deriving DecidableEq

/-- Outcome of the `openmeteo.weather_api(url, params=params)` call: a
list of parsed responses, or a raised transport error (after the retry
wrapper is exhausted). -/
inductive WeatherOutcome where
  | success (responses : List Response)
  | failure (msg : String)
deriving DecidableEq

/-- The external world a single tool invocation observes: the geocoder
outcome for its location string, and the weather API outcome for the
request it would issue. -/
structure Env where
  geo : GeoResult
  weather : WeatherOutcome
deriving DecidableEq

/-- Python exceptions that can escape the tool bodies. -/
inductive PyError where
  | typeError (msg : String)
  | indexError (msg : String)
  | valueError (msg : String)
  | transportError (msg : String)
deriving DecidableEq

/-- Length of `pd.date_range(start, end, freq=step, inclusive="left")`
over integer timestamps: the points `start + k*step` that are `< stop`,
i.e. `ceil((stop - start) / step)` (Nat subtraction truncates at 0). -/
def date_range_len (start stop step : Nat) : Nat :=
  if step = 0 then 0 else ((stop - start) + (step - 1)) / step

/-- Embeds the `pd.date_range(start=..., end=..., freq=..., inclusive="left")`
call at lines 75-80: the timestamp grid from `start` to `stop`, step
`step`, start inclusive and end exclusive. -/
def date_range (start stop step : Nat) : List Nat :=
  (List.range (date_range_len start stop step)).map (fun k => start + k * step)

/-- One row of the hourly dataframe, as produced by
`hourly_dataframe.to_dict(orient="records")` (lines 74-88). -/
structure HourlyRecord where
  date : Nat
  temperature_2m : Rat
  relative_humidity_2m : Rat
  precipitation : Rat
deriving DecidableEq

/-- Embeds lines 74-88 of `get_7day_weather`: build the `date` column via
`date_range`, attach the three value arrays as columns, construct the
DataFrame and convert to records.  `pd.DataFrame` raises `ValueError`
("All arrays must be of the same length") when the columns' lengths
differ; otherwise row `k` of the records carries the `k`-th element of
each column. -/
def hourly_data_records (h : HourlyBlock) : Except String (List HourlyRecord) :=
  if h.temperature_2m.length = (date_range h.time h.time_end h.interval).length ∧
     h.relative_humidity_2m.length = (date_range h.time h.time_end h.interval).length ∧
     h.precipitation.length = (date_range h.time h.time_end h.interval).length then
    .ok ((List.range (date_range h.time h.time_end h.interval).length).map (fun k =>
      { date := (date_range h.time h.time_end h.interval).getD k 0
        temperature_2m := h.temperature_2m.getD k 0
        relative_humidity_2m := h.relative_humidity_2m.getD k 0
        precipitation := h.precipitation.getD k 0 }))
  else
    .error "All arrays must be of the same length"

/-- Embeds lines 122-139 of `get_current_weather`: read the seven scalars
`current.Variables(0).Value()` … `current.Variables(6).Value()` and build
`current_dict` with its seven keys in the source's fixed order.  A missing
position is an out-of-range read, modelled as `none`. -/
def current_fields (current : List Rat) : Option (List (String × Rat)) :=
  match current.get? 0, current.get? 1, current.get? 2, current.get? 3,
        current.get? 4, current.get? 5, current.get? 6 with
  | some v0, some v1, some v2, some v3, some v4, some v5, some v6 =>
    some [("temperature_2m", v0),
          ("relative_humidity_2m", v1),
          ("apparent_temperature", v2),
          ("precipitation", v3),
          ("weather_code", v4),
          ("wind_speed_10m", v5),
          ("wind_direction_10m", v6)]
  | _, _, _, _, _, _, _ => none

/-- Embeds `json.dumps(current_dict)` (line 141): serialize the ordered
field map to a JSON object string.  (Number rendering is abstracted by
`Rat`'s `toString`; the claims in scope depend only on the output being a
text serialization of the field map, not on float formatting.) -/
def json_dumps (fields : List (String × Rat)) : String :=
  "\x7b" ++ String.intercalate ", "
      (fields.map (fun kv => "\"" ++ kv.1 ++ "\": " ++ toString kv.2))
    ++ "\x7d"

/-- Embeds `get_7day_weather` (lines 47-88).  `lat, long =
get_lat_long(location)` raises `TypeError` when `get_lat_long` returns
`None` (unpacking a non-iterable), before any weather call; otherwise one
`weather_api` call is made (counted in the second component), a raised
transport error propagates uncaught, `responses[0]` raises `IndexError`
on an empty list, and the hourly block is shaped into records. -/
def get_7day_weather (env : Env) : Except PyError (List HourlyRecord) × Nat :=
  match get_lat_long env.geo with
  | none => (.error (.typeError "cannot unpack non-iterable NoneType object"), 0)
  | some _ =>
    match env.weather with
    | .failure e => (.error (.transportError e), 1)
    | .success [] => (.error (.indexError "list index out of range"), 1)
    | .success (response :: _) =>
      match hourly_data_records response.hourly with
      | .ok recs => (.ok recs, 1)
      | .error m => (.error (.valueError m), 1)

/-- Embeds `get_current_weather` (lines 92-142).  Same unpack/transport/
indexing structure as `get_7day_weather`; on success the seven current
scalars are assembled into `current_dict` and returned as
`json.dumps(current_dict)` — a string, not structured data. -/
def get_current_weather (env : Env) : Except PyError String × Nat :=
  match get_lat_long env.geo with
  | none => (.error (.typeError "cannot unpack non-iterable NoneType object"), 0)
  | some _ =>
    match env.weather with
    | .failure e => (.error (.transportError e), 1)
    | .success [] => (.error (.indexError "list index out of range"), 1)
    | .success (response :: _) =>
      match current_fields response.current with
      | some fields => (.ok (json_dumps fields), 1)
      | none => (.error (.indexError "variable index out of range"), 1)

/-- Modelled from the spec: the retry wrapper is the external
`retry_requests` library, configured at line 18 as
`retry(cache_session, retries=5, backoff_factor=0.2)`.  Per the spec
(§4.2), transient failures are retried up to the configured count with
exponential backoff, and exhausting retries re-raises the underlying
transport error.  `retry_go attempt factor remaining i delays` performs
attempt `i` with `remaining` retries left; the delay before the retry
after attempt `i` is `factor * 2 ^ i`.  Returns the final outcome, the
number of attempts made, and the backoff delays slept. -/
def retry_go (attempt : Nat → WeatherOutcome) (factor : Rat) :
    Nat → Nat → List Rat → WeatherOutcome × Nat × List Rat
  | 0, i, delays => (attempt i, i + 1, delays)
  | remaining + 1, i, delays =>
    match attempt i with
    | .success rs => (.success rs, i + 1, delays)
    | .failure _ => retry_go attempt factor remaining (i + 1) (delays ++ [factor * 2 ^ i])

/-- Modelled from the spec: one request through the retry wrapper, with
the source's configuration passed in (`retries`, `backoff_factor`). -/
def retry_call (retries : Nat) (factor : Rat) (attempt : Nat → WeatherOutcome) :
    WeatherOutcome × Nat × List Rat :=
  retry_go attempt factor retries 0 []

/-- A cached response body together with its creation time, as stored by
the response cache. -/
structure CacheEntry where
  created_at : Nat
  responses : List Response
deriving DecidableEq

/-- Look up a request signature in the cache store. -/
def cache_lookup (key : String) : List (String × CacheEntry) → Option CacheEntry
  | [] => none
  | kv :: rest => if kv.1 = key then some kv.2 else cache_lookup key rest

/-- Modelled from the spec: the response cache is the external
`requests_cache` library, configured at line 17 as
`CachedSession(".cache", expire_after=3600)`.  Per the spec (§4.2/§3),
successful responses are cached by request signature for `expire_after`
seconds; an identical request within that window is served from the cache
with no network call.  `net` is what the network would answer now; the
third component counts network calls issued (0 or 1). -/
def cached_get (expire_after now : Nat) (key : String) (net : WeatherOutcome)
    (cache : List (String × CacheEntry)) :
    WeatherOutcome × List (String × CacheEntry) × Nat :=
  match cache_lookup key cache with
  | some entry =>
    if now < entry.created_at + expire_after then
      (.success entry.responses, cache, 0)
    else
      match net with
      | .success rs => (.success rs, (key, ⟨now, rs⟩) :: cache.filter (fun kv => kv.1 ≠ key), 1)
      | .failure e => (.failure e, cache, 1)
  | none =>
    match net with
    | .success rs => (.success rs, (key, ⟨now, rs⟩) :: cache.filter (fun kv => kv.1 ≠ key), 1)
    | .failure e => (.failure e, cache, 1)

/-! ## Theorems -/

/-- C4: for every geocoder outcome, `get_lat_long` returns the
`(latitude, longitude)` pair exactly when the upstream yields a match,
and returns the absence value `None` exactly when the upstream yields no
match or raises (transport/service exception, swallowed after logging);
as a total function into `Option` it propagates no exception. -/
theorem get_lat_long_contract (r : GeoResult) :
    (∀ la lo, r = .found la lo → get_lat_long r = some (la, lo)) ∧
    (get_lat_long r = none ↔ r = .notFound ∨ ∃ e, r = .raised e) := by
  cases r <;> simp [get_lat_long]

/-- Witness for C4: the contract evaluated at one outcome of each kind. -/
theorem get_lat_long_contract_witness :
    get_lat_long (GeoResult.found 48 2) = some (48, 2) ∧
    get_lat_long GeoResult.notFound = none ∧
    get_lat_long (GeoResult.raised "timeout") = none :=
  ⟨(get_lat_long_contract (GeoResult.found 48 2)).1 48 2 rfl,
   (get_lat_long_contract GeoResult.notFound).2.mpr (Or.inl rfl),
   (get_lat_long_contract (GeoResult.raised "timeout")).2.mpr (Or.inr ⟨"timeout", rfl⟩)⟩

/-- C1 (code-bug evidence): evaluating both tool operations at a location
the geocoder cannot resolve.  Neither returns a descriptive "not found"
error: both raise `TypeError` from unpacking `None` at `lat, long =
get_lat_long(location)`.  The weather API call is indeed never attempted
(call count 0). -/
theorem unresolved_location_raises_type_error :
    get_7day_weather ⟨GeoResult.notFound, WeatherOutcome.failure "unused"⟩
      = (.error (.typeError "cannot unpack non-iterable NoneType object"), 0) ∧
    get_current_weather ⟨GeoResult.notFound, WeatherOutcome.failure "unused"⟩
      = (.error (.typeError "cannot unpack non-iterable NoneType object"), 0) :=
  ⟨rfl, rfl⟩

/-- C5 counterexample: with geocoding yielding the absence value, neither
tool operation proceeds to call the weather client — the weather call
count is 0, not 1: the unpacking of the absence value fails first. -/
theorem no_weather_call_on_geocode_miss :
    (get_7day_weather ⟨GeoResult.notFound, WeatherOutcome.success []⟩).2 = 0 ∧
    (get_current_weather ⟨GeoResult.notFound, WeatherOutcome.success []⟩).2 = 0 ∧
    (get_7day_weather ⟨GeoResult.notFound, WeatherOutcome.success []⟩).2 ≠ 1 :=
  ⟨rfl, rfl, by decide⟩

/-- C5 (amended): for every environment where geocoding yields the
absence value, each tool operation attempts to unpack that value where a
coordinate pair is expected; the unpacking itself fails with a
`TypeError`, so the call aborts before any weather client call is made
(zero weather calls). -/
theorem geocode_miss_unpack_failure (env : Env)
    (h : get_lat_long env.geo = none) :
    get_7day_weather env
      = (.error (.typeError "cannot unpack non-iterable NoneType object"), 0) ∧
    get_current_weather env
      = (.error (.typeError "cannot unpack non-iterable NoneType object"), 0) := by
  unfold get_7day_weather get_current_weather
  rw [h]
  exact ⟨rfl, rfl⟩

/-- Witness for the amended C5: a geocoder exception also yields the
absence value, and the tool operations abort at the unpack. -/
theorem geocode_miss_unpack_failure_witness :
    get_7day_weather ⟨GeoResult.raised "connection reset", WeatherOutcome.success []⟩
      = (.error (.typeError "cannot unpack non-iterable NoneType object"), 0) ∧
    get_current_weather ⟨GeoResult.raised "connection reset", WeatherOutcome.success []⟩
      = (.error (.typeError "cannot unpack non-iterable NoneType object"), 0) :=
  geocode_miss_unpack_failure ⟨GeoResult.raised "connection reset", WeatherOutcome.success []⟩ rfl

/-- C10: when geocoding succeeds and the weather API returns a non-empty
response list, the output of each tool operation depends only on the
first element of that list: two runs agreeing on the first response (with
arbitrary differing tails and coordinates) produce identical outputs. -/
theorem output_depends_only_on_first_response (env1 env2 : Env) (p1 p2 : Rat × Rat)
    (r : Response) (t1 t2 : List Response)
    (h1 : get_lat_long env1.geo = some p1) (h2 : get_lat_long env2.geo = some p2)
    (hw1 : env1.weather = .success (r :: t1)) (hw2 : env2.weather = .success (r :: t2)) :
    get_7day_weather env1 = get_7day_weather env2 ∧
    get_current_weather env1 = get_current_weather env2 := by
  unfold get_7day_weather get_current_weather
  rw [h1, h2, hw1, hw2]
  exact ⟨rfl, rfl⟩

/-- Witness for C10: two environments differing in coordinates and in the
tail of the response list give the same outputs. -/
theorem output_depends_only_on_first_response_witness :
    get_7day_weather ⟨GeoResult.found 1 2, WeatherOutcome.success [⟨⟨0, 0, 1, [], [], []⟩, []⟩]⟩
      = get_7day_weather ⟨GeoResult.found 3 4,
          WeatherOutcome.success [⟨⟨0, 0, 1, [], [], []⟩, []⟩, ⟨⟨5, 5, 1, [], [], []⟩, [9]⟩]⟩ ∧
    get_current_weather ⟨GeoResult.found 1 2, WeatherOutcome.success [⟨⟨0, 0, 1, [], [], []⟩, []⟩]⟩
      = get_current_weather ⟨GeoResult.found 3 4,
          WeatherOutcome.success [⟨⟨0, 0, 1, [], [], []⟩, []⟩, ⟨⟨5, 5, 1, [], [], []⟩, [9]⟩]⟩ :=
  output_depends_only_on_first_response _ _ (1, 2) (3, 4) ⟨⟨0, 0, 1, [], [], []⟩, []⟩
    [] [⟨⟨5, 5, 1, [], [], []⟩, [9]⟩] rfl rfl rfl rfl

/-- C3: for every successful current-conditions response, the assembled
field map contains exactly the seven fixed fields in the source's stable
key order, the field at request position `k` carrying the response's
scalar at position `k`; and `get_current_weather` returns that field map
serialized. -/
theorem current_weather_fields (env : Env) (p : Rat × Rat) (r : Response)
    (rest : List Response) (v0 v1 v2 v3 v4 v5 v6 : Rat)
    (hg : get_lat_long env.geo = some p)
    (hw : env.weather = .success (r :: rest))
    (h0 : r.current.get? 0 = some v0) (h1 : r.current.get? 1 = some v1)
    (h2 : r.current.get? 2 = some v2) (h3 : r.current.get? 3 = some v3)
    (h4 : r.current.get? 4 = some v4) (h5 : r.current.get? 5 = some v5)
    (h6 : r.current.get? 6 = some v6) :
    current_fields r.current
      = some [("temperature_2m", v0),
              ("relative_humidity_2m", v1),
              ("apparent_temperature", v2),
              ("precipitation", v3),
              ("weather_code", v4),
              ("wind_speed_10m", v5),
              ("wind_direction_10m", v6)] ∧
    (get_current_weather env).1
      = .ok (json_dumps [("temperature_2m", v0),
                         ("relative_humidity_2m", v1),
                         ("apparent_temperature", v2),
                         ("precipitation", v3),
                         ("weather_code", v4),
                         ("wind_speed_10m", v5),
                         ("wind_direction_10m", v6)]) := by
  have hf : current_fields r.current
      = some [("temperature_2m", v0),
              ("relative_humidity_2m", v1),
              ("apparent_temperature", v2),
              ("precipitation", v3),
              ("weather_code", v4),
              ("wind_speed_10m", v5),
              ("wind_direction_10m", v6)] := by
    unfold current_fields
    rw [h0, h1, h2, h3, h4, h5, h6]
  refine ⟨hf, ?_⟩
  simp [get_current_weather, hg, hw, hf]

/-- Witness for C3: a concrete response with scalars 1..7 at positions
0..6 yields the seven fields in order with the positional values. -/
theorem current_weather_fields_witness :
    current_fields [1, 2, 3, 4, 5, 6, 7]
      = some [("temperature_2m", 1),
              ("relative_humidity_2m", 2),
              ("apparent_temperature", 3),
              ("precipitation", 4),
              ("weather_code", 5),
              ("wind_speed_10m", 6),
              ("wind_direction_10m", 7)] ∧
    (get_current_weather ⟨GeoResult.found 10 20,
        WeatherOutcome.success [⟨⟨0, 0, 1, [], [], []⟩, [1, 2, 3, 4, 5, 6, 7]⟩]⟩).1
      = .ok (json_dumps [("temperature_2m", 1),
                         ("relative_humidity_2m", 2),
                         ("apparent_temperature", 3),
                         ("precipitation", 4),
                         ("weather_code", 5),
                         ("wind_speed_10m", 6),
                         ("wind_direction_10m", 7)]) :=
  current_weather_fields ⟨GeoResult.found 10 20,
      WeatherOutcome.success [⟨⟨0, 0, 1, [], [], []⟩, [1, 2, 3, 4, 5, 6, 7]⟩]⟩
    (10, 20) ⟨⟨0, 0, 1, [], [], []⟩, [1, 2, 3, 4, 5, 6, 7]⟩ []
    1 2 3 4 5 6 7 rfl rfl rfl rfl rfl rfl rfl rfl rfl

/-- C6: on success, `get_current_weather` returns its single field map
serialized to a JSON text string (`json_dumps`), whereas
`get_7day_weather` returns structured records (a `List HourlyRecord`). -/
theorem current_text_forecast_records (envc env7 : Env) (pc p7 : Rat × Rat)
    (rc r7 : Response) (restc rest7 : List Response)
    (fields : List (String × Rat)) (recs : List HourlyRecord)
    (hgc : get_lat_long envc.geo = some pc)
    (hwc : envc.weather = .success (rc :: restc))
    (hf : current_fields rc.current = some fields)
    (hg7 : get_lat_long env7.geo = some p7)
    (hw7 : env7.weather = .success (r7 :: rest7))
    (hr : hourly_data_records r7.hourly = .ok recs) :
    (get_current_weather envc).1 = .ok (json_dumps fields) ∧
    (get_7day_weather env7).1 = .ok recs := by
  constructor
  · simp [get_current_weather, hgc, hwc, hf]
  · simp [get_7day_weather, hg7, hw7, hr]

/-- Witness for C6: a concrete successful run of each operation; the
current-conditions output is the serialized text, the forecast output is
a list of records. -/
theorem current_text_forecast_records_witness :
    (get_current_weather ⟨GeoResult.found 0 0,
        WeatherOutcome.success [⟨⟨0, 0, 1, [], [], []⟩, [1, 2, 3, 4, 5, 6, 7]⟩]⟩).1
      = .ok (json_dumps [("temperature_2m", 1),
                         ("relative_humidity_2m", 2),
                         ("apparent_temperature", 3),
                         ("precipitation", 4),
                         ("weather_code", 5),
                         ("wind_speed_10m", 6),
                         ("wind_direction_10m", 7)]) ∧
    (get_7day_weather ⟨GeoResult.found 0 0,
        WeatherOutcome.success [⟨⟨0, 3600, 3600, [21], [55], [0]⟩, []⟩]⟩).1
      = .ok [⟨0, 21, 55, 0⟩] :=
  current_text_forecast_records
    ⟨GeoResult.found 0 0,
      WeatherOutcome.success [⟨⟨0, 0, 1, [], [], []⟩, [1, 2, 3, 4, 5, 6, 7]⟩]⟩
    ⟨GeoResult.found 0 0,
      WeatherOutcome.success [⟨⟨0, 3600, 3600, [21], [55], [0]⟩, []⟩]⟩
    (0, 0) (0, 0)
    ⟨⟨0, 0, 1, [], [], []⟩, [1, 2, 3, 4, 5, 6, 7]⟩
    ⟨⟨0, 3600, 3600, [21], [55], [0]⟩, []⟩
    [] []
    [("temperature_2m", 1), ("relative_humidity_2m", 2), ("apparent_temperature", 3),
     ("precipitation", 4), ("weather_code", 5), ("wind_speed_10m", 6),
     ("wind_direction_10m", 7)]
    [⟨0, 21, 55, 0⟩]
    rfl rfl rfl rfl rfl rfl

/-- When the end time sits exactly `n` steps after the start time, the
half-open timestamp grid has exactly `n` points. -/
lemma date_range_len_exact (start step n : Nat) (h : 0 < step) :
    date_range_len start (start + n * step) step = n := by
  have hne : step ≠ 0 := by omega
  unfold date_range_len
  rw [if_neg hne]
  have h1 : start + n * step - start + (step - 1) = step - 1 + step * n := by
    rw [Nat.mul_comm step n]; omega
  rw [h1, Nat.add_mul_div_left _ _ h, Nat.div_eq_of_lt (by omega)]
  omega

/-- The grid's length is `date_range_len`. -/
lemma date_range_length (start stop step : Nat) :
    (date_range start stop step).length = date_range_len start stop step := by
  simp [date_range]

/-- The `k`-th grid point is `start + k * step`. -/
lemma date_range_getD (start stop step k : Nat)
    (hk : k < (date_range start stop step).length) :
    (date_range start stop step).getD k 0 = start + k * step := by
  rw [List.getD_eq_getElem _ _ hk]
  simp [date_range]

/-- C2: for every hourly block whose end time is `n` intervals after its
start time and whose three value arrays each have length `n`, the shaper
produces exactly `n` records, the `k`-th (0-based) carrying timestamp
`time + k * interval` (start inclusive, end exclusive) together with the
`k`-th element of each value array — in particular chronological order. -/
theorem hourly_records_shape (h : HourlyBlock) (n : Nat)
    (hstep : 0 < h.interval)
    (hend : h.time_end = h.time + n * h.interval)
    (ht : h.temperature_2m.length = n)
    (hh : h.relative_humidity_2m.length = n)
    (hp : h.precipitation.length = n) :
    ∃ recs : List HourlyRecord,
      hourly_data_records h = .ok recs ∧
      recs.length = n ∧
      ∀ k, k < n →
        recs[k]? = some { date := h.time + k * h.interval,
                          temperature_2m := h.temperature_2m.getD k 0,
                          relative_humidity_2m := h.relative_humidity_2m.getD k 0,
                          precipitation := h.precipitation.getD k 0 } := by
  have hlen : (date_range h.time h.time_end h.interval).length = n := by
    rw [date_range_length, hend, date_range_len_exact h.time h.interval n hstep]
  have hcond : h.temperature_2m.length = (date_range h.time h.time_end h.interval).length ∧
      h.relative_humidity_2m.length = (date_range h.time h.time_end h.interval).length ∧
      h.precipitation.length = (date_range h.time h.time_end h.interval).length := by
    rw [hlen]; exact ⟨ht, hh, hp⟩
  refine ⟨(List.range (date_range h.time h.time_end h.interval).length).map (fun k =>
      { date := (date_range h.time h.time_end h.interval).getD k 0
        temperature_2m := h.temperature_2m.getD k 0
        relative_humidity_2m := h.relative_humidity_2m.getD k 0
        precipitation := h.precipitation.getD k 0 }), ?_, ?_, ?_⟩
  · unfold hourly_data_records
    rw [if_pos hcond]
  · simp [hlen]
  · intro k hk
    have hkL : k < (date_range h.time h.time_end h.interval).length := by omega
    simp only [List.getElem?_map, List.getElem?_range hkL, Option.map_some']
    rw [date_range_getD h.time h.time_end h.interval k hkL]

/-- Witness for C2: the spec's example — `T = 0`, interval 3600 s, end
`T + 3*3600`, temperatures `[10, 11, 12]` — yields exactly 3 records with
timestamps `T`, `T+3600`, `T+7200` paired with those values. -/
theorem hourly_records_shape_witness :
    ∃ recs : List HourlyRecord,
      hourly_data_records ⟨0, 10800, 3600, [10, 11, 12], [50, 60, 70], [0, 1, 2]⟩ = .ok recs ∧
      recs.length = 3 ∧
      ∀ k, k < 3 →
        recs[k]? = some { date := 0 + k * 3600,
                          temperature_2m := List.getD [10, 11, 12] k 0,
                          relative_humidity_2m := List.getD [50, 60, 70] k 0,
                          precipitation := List.getD [0, 1, 2] k 0 } :=
  hourly_records_shape ⟨0, 10800, 3600, [10, 11, 12], [50, 60, 70], [0, 1, 2]⟩ 3
    (by decide) (by decide) rfl rfl rfl

/-- C7: when some value array's length differs from the reconstructed
timestamp sequence's length, `get_7day_weather` does not return a record
sequence: the call fails with the unguarded array-shape error raised by
the dataframe construction. -/
theorem mismatched_arrays_fail (env : Env) (p : Rat × Rat) (r : Response)
    (rest : List Response)
    (hg : get_lat_long env.geo = some p)
    (hw : env.weather = .success (r :: rest))
    (hmis : r.hourly.temperature_2m.length
        ≠ (date_range r.hourly.time r.hourly.time_end r.hourly.interval).length ∨
      r.hourly.relative_humidity_2m.length
        ≠ (date_range r.hourly.time r.hourly.time_end r.hourly.interval).length ∨
      r.hourly.precipitation.length
        ≠ (date_range r.hourly.time r.hourly.time_end r.hourly.interval).length) :
    (get_7day_weather env).1 = .error (.valueError "All arrays must be of the same length") := by
  have herr : hourly_data_records r.hourly = .error "All arrays must be of the same length" := by
    unfold hourly_data_records
    rw [if_neg (by tauto)]
  simp [get_7day_weather, hg, hw, herr]

/-- Witness for C7: a response whose grid has 2 timestamps but whose
temperature array has length 1 makes the forecast call fail. -/
theorem mismatched_arrays_fail_witness :
    (get_7day_weather ⟨GeoResult.found 0 0,
        WeatherOutcome.success [⟨⟨0, 7200, 3600, [1], [1, 2], [1, 2]⟩, []⟩]⟩).1
      = .error (.valueError "All arrays must be of the same length") :=
  mismatched_arrays_fail
    ⟨GeoResult.found 0 0, WeatherOutcome.success [⟨⟨0, 7200, 3600, [1], [1, 2], [1, 2]⟩, []⟩]⟩
    (0, 0) ⟨⟨0, 7200, 3600, [1], [1, 2], [1, 2]⟩, []⟩ []
    rfl rfl (Or.inl (by decide))

/-- C8: with the source's configuration (`retries=5`,
`backoff_factor=0.2`), an always-failing transport is attempted once plus
five retries, each retry preceded by exponentially growing backoff
(`0.2 * 2 ^ attempt`); a first-try success makes one attempt with no
backoff; and after retries are exhausted the underlying transport error
propagates uncaught through both tool operations — it is never silently
swallowed. -/
theorem retry_exhaustion_propagates (e : String) (env : Env) (p : Rat × Rat)
    (hg : get_lat_long env.geo = some p)
    (hw : env.weather = .failure e) :
    retry_call 5 (1/5) (fun _ => .failure e)
      = (.failure e, 6, [1/5 * 2 ^ 0, 1/5 * 2 ^ 1, 1/5 * 2 ^ 2, 1/5 * 2 ^ 3, 1/5 * 2 ^ 4]) ∧
    (∀ rs : List Response,
      retry_call 5 (1/5) (fun _ => WeatherOutcome.success rs) = (.success rs, 1, [])) ∧
    (get_7day_weather env).1 = .error (.transportError e) ∧
    (get_current_weather env).1 = .error (.transportError e) := by
  refine ⟨rfl, fun rs => rfl, ?_, ?_⟩
  · simp [get_7day_weather, hg, hw]
  · simp [get_current_weather, hg, hw]

/-- Witness for C8: a concrete exhausted transport error propagates
through both tool operations. -/
theorem retry_exhaustion_propagates_witness :
    retry_call 5 (1/5) (fun _ => WeatherOutcome.failure "connection timeout")
      = (.failure "connection timeout", 6,
         [1/5 * 2 ^ 0, 1/5 * 2 ^ 1, 1/5 * 2 ^ 2, 1/5 * 2 ^ 3, 1/5 * 2 ^ 4]) ∧
    (∀ rs : List Response,
      retry_call 5 (1/5) (fun _ => WeatherOutcome.success rs) = (.success rs, 1, [])) ∧
    (get_7day_weather ⟨GeoResult.found 0 0, WeatherOutcome.failure "connection timeout"⟩).1
      = .error (.transportError "connection timeout") ∧
    (get_current_weather ⟨GeoResult.found 0 0, WeatherOutcome.failure "connection timeout"⟩).1
      = .error (.transportError "connection timeout") :=
  retry_exhaustion_propagates "connection timeout"
    ⟨GeoResult.found 0 0, WeatherOutcome.failure "connection timeout"⟩ (0, 0) rfl rfl

/-- C9: a first request stores its successful response in the cache and
issues one network call; an identical request (same signature) within the
one-hour window is served from the cache with zero network calls,
whatever the network would answer the second time. -/
theorem cache_window_no_second_call (key : String) (rs : List Response)
    (t1 t2 : Nat) (net2 : WeatherOutcome)
    (hwin : t2 < t1 + 3600) :
    cached_get 3600 t1 key (.success rs) [] = (.success rs, [(key, ⟨t1, rs⟩)], 1) ∧
    cached_get 3600 t2 key net2 [(key, ⟨t1, rs⟩)] = (.success rs, [(key, ⟨t1, rs⟩)], 0) := by
  constructor
  · rfl
  · simp [cached_get, cache_lookup, hwin]

/-- Witness for C9: a concrete repeated request 3599 s after the first is
served from cache with no network call, even though the network would now
fail. -/
theorem cache_window_no_second_call_witness :
    cached_get 3600 0 "sig" (.success []) [] = (.success [], [("sig", ⟨0, []⟩)], 1) ∧
    cached_get 3600 3599 "sig" (WeatherOutcome.failure "offline") [("sig", ⟨0, []⟩)]
      = (.success [], [("sig", ⟨0, []⟩)], 0) :=
  cache_window_no_second_call "sig" [] 0 3599 (WeatherOutcome.failure "offline") (by decide)

end OpenmeteoWeather
